import Mathlib

/-!
Verification of the pcap-extractor Grafana datasource backend
(pkg/plugin/datasource.go), as a shallow embedding.

External collaborators (the Step Functions client, the S3 presign client)
are modelled as function parameters; each handler returns the data response
it builds together with the list of external calls it performed, so that
properties of the form "operation X is (not) invoked" are statable.
Machine details that the handlers depend on are embedded from their
sources: the AWS SDK arn.Parse routine, Go strings.SplitN / strings.Replace,
and Go encoding/json marshalling of the StepFunctionInput struct.
-/

/-- Plugin instance settings (models.PluginSettings): the configured Step
Function ARN and S3 bucket name. -/
structure PluginSettings where
  stepFunctionArn : String
  s3Bucket : String
deriving DecidableEq

/-- The query model the backend unmarshals each query JSON into
(datasource.go queryModel).  The Go map for Extract is modelled as an
association list of (source name, packet numbers). -/
structure queryModel where
  Action : String
  JobId : String
  Extract : List (String × List Int)
deriving DecidableEq

/-- The JSON payload handed to StartExecution (datasource.go
StepFunctionInput), with json tags jobId, bucket, extract. -/
structure StepFunctionInput where
  JobId : String
  Bucket : String
  Extract : List (String × List Int)
deriving DecidableEq

/-- The arguments of an sfn.StartExecution call. -/
structure StartExecutionInput where
  name : String
  stateMachineArn : String
  input : String
deriving DecidableEq

/-- The part of sfn.DescribeExecutionOutput the handler reads: the status
string and the optional error and cause strings. -/
structure DescribeExecutionOutput where
  status : String
  error : Option String
  cause : Option String
deriving DecidableEq

/-- The arguments of an s3 PresignGetObject call: bucket, key and the
Expires option in nanoseconds (Go time.Duration units). -/
structure GetObjectPresignInput where
  bucket : String
  key : String
  expires : Nat
deriving DecidableEq

/-- Go time.Hour as a time.Duration (nanoseconds): the presign expiry the
code sets is time.Hour * 1. -/
def timeHour : Nat := 3600 * 1000000000

/-- One external (AWS) call performed by a handler. -/
inductive ExtCall where
  | startExecution (i : StartExecutionInput)
  | describeExecution (executionArn : String)
  | presignGetObject (i : GetObjectPresignInput)
  | describeStateMachine (stateMachineArn : String)
deriving DecidableEq

/-- A field of a Grafana data frame: name and string values column. -/
structure DataField where
  name : String
  values : List String
deriving DecidableEq

/-- A Grafana data frame: name and fields in append order. -/
structure Frame where
  name : String
  fields : List DataField
deriving DecidableEq

/-- backend.DataResponse: the frames, and (for ErrDataResponse) the HTTP
status code paired with the error message. -/
structure DataResponse where
  frames : List Frame
  error : Option (Nat × String)
deriving DecidableEq

/-- backend.StatusBadRequest. -/
def statusBadRequest : Nat := 400

/-- backend.ErrDataResponse: a response carrying only an error. -/
def errDataResponse (status : Nat) (msg : String) : DataResponse :=
  { frames := [], error := some (status, msg) }

/-- Whether a frame has a field of the given name. -/
def Frame.hasField (f : Frame) (n : String) : Bool :=
  f.fields.any fun fl => fl.name = n

/-- Boolean prefix test on character lists. -/
def charsPfx : List Char → List Char → Bool
  | [], _ => true
  | _ :: _, [] => false
  | a :: as, b :: bs => a = b && charsPfx as bs

/-- Split a character list at the first occurrence of a pattern: returns
the part before it and the part after it (pattern removed), or none when
the pattern does not occur. -/
def splitFirst (pat : List Char) : List Char → Option (List Char × List Char)
  | [] => if pat.isEmpty then some ([], []) else none
  | b :: bs =>
    if charsPfx pat (b :: bs) then some ([], (b :: bs).drop pat.length)
    else
      match splitFirst pat bs with
      | some (pre, post) => some (b :: pre, post)
      | none => none

/-- Whether pat occurs as a contiguous substring of s. -/
def strContainsSub (s pat : String) : Bool :=
  (splitFirst pat.data s.data).isSome

/-- Go strings.Replace(s, old, new, 1): replace the first occurrence. -/
def goReplaceOnce (s old new : String) : String :=
  match splitFirst old.data s.data with
  | some (pre, post) => String.mk (pre ++ new.data ++ post)
  | none => s

/-- Auxiliary for Go strings.SplitN on character lists: at most n pieces,
the last piece keeps the unsplit remainder. -/
def goSplitNAux (sep : List Char) : Nat → List Char → List (List Char)
  | 0, _ => []
  | 1, s => [s]
  | Nat.succ (Nat.succ m), s =>
    match splitFirst sep s with
    | none => [s]
    | some (pre, post) => pre :: goSplitNAux sep (Nat.succ m) post

/-- Go strings.SplitN(s, sep, n) for positive n and non-empty sep. -/
def goSplitN (s sep : String) (n : Nat) : List String :=
  (goSplitNAux sep.data n s.data).map String.mk

/-- An AWS ARN as parsed by the aws-sdk-go-v2 arn package. -/
structure ARN where
  partition : String
  service : String
  region : String
  accountID : String
  resource : String
deriving DecidableEq

/-- aws-sdk-go-v2 arn.Parse: requires the "arn:" prefix and exactly six
colon-delimited sections (SplitN with n = 6). -/
def arnParse (s : String) : Except String ARN :=
  if charsPfx "arn:".data s.data then
    match goSplitN s ":" 6 with
    | [_, a1, a2, a3, a4, a5] => Except.ok ⟨a1, a2, a3, a4, a5⟩
    | _ => Except.error "arn: not enough sections"
  else Except.error "arn: invalid prefix"

/-- Go encoding/json escaping of one character inside a string literal
(default HTML-escaping encoder used by json.Marshal). -/
def goEscapeChar (c : Char) : String :=
  if c = Char.ofNat 34 then "\\\""
  else if c = Char.ofNat 92 then "\\\\"
  else if c = Char.ofNat 10 then "\\n"
  else if c = Char.ofNat 13 then "\\r"
  else if c = Char.ofNat 9 then "\\t"
  else if c = Char.ofNat 60 then "\\u003c"
  else if c = Char.ofNat 62 then "\\u003e"
  else if c = Char.ofNat 38 then "\\u0026"
  else if c.toNat < 32 then
    String.mk [Char.ofNat 92, Char.ofNat 117, Char.ofNat 48, Char.ofNat 48,
      (if c.toNat / 16 < 10 then Char.ofNat (48 + c.toNat / 16) else Char.ofNat (87 + c.toNat / 16)),
      (if c.toNat % 16 < 10 then Char.ofNat (48 + c.toNat % 16) else Char.ofNat (87 + c.toNat % 16))]
  else if c.toNat = 0x2028 then "\\u2028"
  else if c.toNat = 0x2029 then "\\u2029"
  else String.mk [c]

/-- Go encoding/json marshalling of a string value. -/
def goQuote (s : String) : String :=
  "\"" ++ String.join (s.data.map goEscapeChar) ++ "\""

/-- Go encoding/json marshalling of an int slice. -/
def marshalIntList (xs : List Int) : String :=
  "[" ++ String.intercalate "," (xs.map fun i => toString i) ++ "]"

/-- Byte-lexicographic order on strings (the order Go sorts map keys in
when marshalling a map); for valid Unicode, codepoint order coincides with
UTF-8 byte order. -/
def charsLt : List Char → List Char → Bool
  | [], [] => false
  | [], _ :: _ => true
  | _ :: _, [] => false
  | a :: as, b :: bs => if a < b then true else if b < a then false else charsLt as bs

/-- Insert an entry into a key-sorted association list. -/
def insertByKey (p : String × List Int) : List (String × List Int) → List (String × List Int)
  | [] => [p]
  | q :: rest => if charsLt p.1.data q.1.data then p :: q :: rest else q :: insertByKey p rest

/-- Sort an association list by key (Go marshals maps with sorted keys). -/
def sortByKey : List (String × List Int) → List (String × List Int)
  | [] => []
  | p :: rest => insertByKey p (sortByKey rest)

/-- Go encoding/json marshalling of the map[string][]int Extract value:
keys sorted, each mapped to its int list. -/
def marshalExtract (e : List (String × List Int)) : String :=
  "\x7b" ++ String.intercalate ","
    ((sortByKey e).map fun p => goQuote p.1 ++ ":" ++ marshalIntList p.2) ++ "\x7d"

/-- Go encoding/json marshalling of StepFunctionInput: object keys in
struct-field order jobId, bucket, extract. -/
def marshalStepFunctionInput (i : StepFunctionInput) : String :=
  "\x7b\"jobId\":" ++ goQuote i.JobId ++ ",\"bucket\":" ++ goQuote i.Bucket
    ++ ",\"extract\":" ++ marshalExtract i.Extract ++ "\x7d"

/-- datasource.go validateSettings. -/
def validateSettings (s : PluginSettings) : Except String Unit :=
  if s.stepFunctionArn = "" then Except.error "Step Function ARN not configured"
  else if s.s3Bucket = "" then Except.error "S3 Bucket name not configured"
  else Except.ok ()

/-- datasource.go handleRequestAction (with executeStepFunction inlined:
marshalling the input struct cannot fail, so the only error source is the
StartExecution call itself, wrapped as in executeStepFunction and then as
in the handler). -/
def handleRequestAction (settings : PluginSettings)
    (startExecution : StartExecutionInput → Except String String)
    (qm : queryModel) : DataResponse × List ExtCall :=
  if qm.Extract.length = 0 then
    (errDataResponse statusBadRequest "Extract parameter is required for request action", [])
  else if qm.JobId = "" then
    (errDataResponse statusBadRequest "JobId is required for request action", [])
  else
    let sfnInput : StepFunctionInput :=
      { JobId := qm.JobId, Bucket := settings.s3Bucket, Extract := qm.Extract }
    let inp : StartExecutionInput :=
      { name := qm.JobId, stateMachineArn := settings.stepFunctionArn,
        input := marshalStepFunctionInput sfnInput }
    match startExecution inp with
    | Except.error e =>
      (errDataResponse statusBadRequest
        ("Step Function execution failed: failed to execute Step Function execution: " ++ e),
        [ExtCall.startExecution inp])
    | Except.ok _ =>
      ({ frames := [{ name := "step_function_request",
                      fields := [{ name := "status", values := ["RUNNING"] },
                                 { name := "job_id", values := [qm.JobId] }] }],
         error := none },
        [ExtCall.startExecution inp])

/-- datasource.go generatePresignedURL: the presigner (none models a nil
d.s3Presigner), the bucket and key; returns the URL or the wrapped error,
together with the presign call performed (if any). -/
def generatePresignedURL
    (presigner : Option (GetObjectPresignInput → Except String String))
    (bucket key : String) : Except String String × List ExtCall :=
  match presigner with
  | none => (Except.error "S3 presigner is not initialized", [])
  | some f =>
    let inp : GetObjectPresignInput := { bucket := bucket, key := key, expires := timeHour }
    match f inp with
    | Except.error e =>
      (Except.error ("failed to generate presigned URL: " ++ e), [ExtCall.presignGetObject inp])
    | Except.ok url => (Except.ok url, [ExtCall.presignGetObject inp])

/-- datasource.go handleStatusAction. -/
def handleStatusAction (settings : PluginSettings)
    (describeExecution : String → Except String DescribeExecutionOutput)
    (presigner : Option (GetObjectPresignInput → Except String String))
    (qm : queryModel) : DataResponse × List ExtCall :=
  if qm.JobId = "" then
    (errDataResponse statusBadRequest "JobId is required for status action", [])
  else
    match arnParse settings.stepFunctionArn with
    | Except.error e =>
      (errDataResponse statusBadRequest ("Failed to parse Step Function ARN: " ++ e), [])
    | Except.ok a =>
      let executionArn := "arn:aws:states:" ++ a.region ++ ":" ++ a.accountID
        ++ ":execution:" ++ goReplaceOnce a.resource "stateMachine:" "" ++ ":" ++ qm.JobId
      match describeExecution executionArn with
      | Except.error e =>
        (errDataResponse statusBadRequest ("Failed to get execution status: " ++ e),
          [ExtCall.describeExecution executionArn])
      | Except.ok result =>
        let status := result.status
        let fields0 : List DataField := [{ name := "status", values := [status] }]
        let fields1 : List DataField :=
          match result.error with
          | some e =>
            if status = "FAILED" then fields0 ++ [{ name := "error", values := [e] }]
            else fields0
          | none => fields0
        let fields2 : List DataField :=
          match result.cause with
          | some c => fields1 ++ [{ name := "cause", values := [c] }]
          | none => fields1
        if status = "SUCCEEDED" then
          let s3Key := qm.JobId ++ ".pcapng"
          let pres := generatePresignedURL presigner settings.s3Bucket s3Key
          let fields3 : List DataField :=
            match pres.1 with
            | Except.error _ => fields2
            | Except.ok url => fields2 ++ [{ name := "download_url", values := [url] }]
          ({ frames := [{ name := "step_function_status", fields := fields3 }], error := none },
            ExtCall.describeExecution executionArn :: pres.2)
        else
          ({ frames := [{ name := "step_function_status", fields := fields2 }], error := none },
            [ExtCall.describeExecution executionArn])

/-- datasource.go query: validate settings, then dispatch on the action
(the query model is the result of a successful JSON unmarshal). -/
def Datasource.query (settings : PluginSettings)
    (startExecution : StartExecutionInput → Except String String)
    (describeExecution : String → Except String DescribeExecutionOutput)
    (presigner : Option (GetObjectPresignInput → Except String String))
    (qm : queryModel) : DataResponse × List ExtCall :=
  match validateSettings settings with
  | Except.error e =>
    (errDataResponse statusBadRequest ("Incomplete plugin settings: " ++ e), [])
  | Except.ok _ =>
    if qm.Action = "request" then handleRequestAction settings startExecution qm
    else if qm.Action = "status" then handleStatusAction settings describeExecution presigner qm
    else (errDataResponse statusBadRequest ("unknown action: \x27" ++ qm.Action ++ "\x27"), [])

/-- backend.HealthStatus. -/
inductive HealthStatus where
  | unknown
  | ok
  | error
deriving DecidableEq

/-- backend.CheckHealthResult. -/
structure CheckHealthResult where
  status : HealthStatus
  message : String
deriving DecidableEq

/-- datasource.go CheckHealth: the optional client models a nil
d.sfnClient (no accessibility probe then). -/
def CheckHealth (settings : PluginSettings)
    (sfnClient : Option (String → Except String Unit)) : CheckHealthResult × List ExtCall :=
  if settings.s3Bucket = "" then
    ({ status := HealthStatus.error, message := "S3 Bucket name is missing" }, [])
  else if settings.stepFunctionArn = "" then
    ({ status := HealthStatus.error, message := "Step Function ARN is missing" }, [])
  else
    match sfnClient with
    | some describeStateMachine =>
      match describeStateMachine settings.stepFunctionArn with
      | Except.error e =>
        ({ status := HealthStatus.error, message := "Cannot access Step Function: " ++ e },
          [ExtCall.describeStateMachine settings.stepFunctionArn])
      | Except.ok _ =>
        ({ status := HealthStatus.ok,
           message := "Data source is working: " ++ String.intercalate ","
             ["Step Function is accessible", "S3 Bucket access is not being tested."] },
          [ExtCall.describeStateMachine settings.stepFunctionArn])
    | none =>
      ({ status := HealthStatus.ok,
         message := "Data source is working: " ++ String.intercalate ","
           ["S3 Bucket access is not being tested."] },
        [])

/-- Keep only the presign calls of a call log. -/
def presignCallsOf (l : List ExtCall) : List ExtCall :=
  l.filter fun c =>
    match c with
    | ExtCall.presignGetObject _ => true
    | _ => false

/-- Whether an Except value is a success. -/
def exceptIsOk : Except String String → Bool
  | Except.ok _ => true
  | Except.error _ => false

deriving instance DecidableEq for Except

/-! ## Helper lemmas -/

/-- A pattern is a prefix of itself followed by anything. -/
theorem charsPfx_append (p r : List Char) : charsPfx p (p ++ r) = true := by
  induction p with
  | nil => rfl
  | cons a as ih => simp [charsPfx, ih]

/-- splitFirst finds a pattern that occurs in the list. -/
theorem splitFirst_append_isSome (p r : List Char) :
    ∀ l, (splitFirst p (l ++ (p ++ r))).isSome = true := by
  intro l
  induction l with
  | nil =>
    cases p with
    | nil =>
      cases r with
      | nil => simp [splitFirst]
      | cons b bs => simp [splitFirst, charsPfx]
    | cons a as =>
      have h : charsPfx (a :: as) (a :: (as ++ r)) = true := charsPfx_append (a :: as) r
      simp [splitFirst, h]
  | cons x xs ih =>
    show (splitFirst p (x :: (xs ++ (p ++ r)))).isSome = true
    by_cases h : charsPfx p (x :: (xs ++ (p ++ r))) = true
    · simp [splitFirst, h]
    · rcases hs : splitFirst p (xs ++ (p ++ r)) with _ | ⟨pre, post⟩
      · rw [hs] at ih
        simp at ih
      · simp [splitFirst, h, hs]

/-- A string of the shape before ++ pat ++ after contains pat. -/
theorem strContainsSub_append (s1 t s2 : String) : strContainsSub (s1 ++ t ++ s2) t = true := by
  have hd : (s1 ++ t ++ s2).data = s1.data ++ (t.data ++ s2.data) := by
    simp [String.data_append]
  rw [strContainsSub, hd]
  exact splitFirst_append_isSome t.data s2.data s1.data

/-! ## Claim theorems -/

/-- C1 (counterexample to the claim as stated): for a describe-execution
result with status SUCCEEDED whose cause string is non-nil, the response
frame does contain a cause field (the code appends the cause field
whenever the cause is non-nil, without checking the status), so the frame
field names are status, cause, download_url rather than cause-free. -/
theorem C1_counterexample :
    ((handleStatusAction ⟨"arn:aws:states:eu-west-1:123456789012:stateMachine:sm", "bucket"⟩
        (fun _ => Except.ok ⟨"SUCCEEDED", some "E", some "C"⟩)
        (some fun _ => Except.ok "http://u") ⟨"status", "job1", []⟩).1.frames.map
      (fun fr => fr.fields.map DataField.name)) = [["status", "cause", "download_url"]] := by
  decide

/-- C1 (amended): for every status query whose describe-execution result
has status SUCCEEDED, the overall response is a success, its frame
contains a download_url field exactly when presign succeeds, never
contains an error field, and contains a cause field exactly when the
engine result carries a non-nil cause string. -/
theorem C1_amended_thm
    (settings : PluginSettings) (qm : queryModel) (a : ARN)
    (result : DescribeExecutionOutput)
    (presignF : GetObjectPresignInput → Except String String)
    (hjob : ¬ qm.JobId = "")
    (harn : arnParse settings.stepFunctionArn = Except.ok a)
    (hstatus : result.status = "SUCCEEDED") :
    ((handleStatusAction settings (fun _ => Except.ok result) (some presignF) qm).1.error = none) ∧
    ((handleStatusAction settings (fun _ => Except.ok result) (some presignF) qm).1.frames.map
        (fun fr => (fr.hasField "error", fr.hasField "cause", fr.hasField "download_url"))) =
      [(false, result.cause.isSome,
        exceptIsOk (presignF { bucket := settings.s3Bucket, key := qm.JobId ++ ".pcapng", expires := timeHour }))] := by
  cases hre : result.error <;>
  cases hrc : result.cause <;>
  cases hp : presignF { bucket := settings.s3Bucket, key := qm.JobId ++ ".pcapng", expires := timeHour } <;>
  simp [handleStatusAction, generatePresignedURL, Frame.hasField, exceptIsOk,
    hjob, harn, hstatus, hre, hrc, hp]

/-- C1 witness: concrete SUCCEEDED result with a cause and a succeeding
presigner. -/
theorem C1_witness :
    ((handleStatusAction ⟨"arn:aws:states:eu-west-1:123456789012:stateMachine:sm", "bucket"⟩
        (fun _ => Except.ok ⟨"SUCCEEDED", none, some "C"⟩)
        (some fun _ => Except.ok "http://u") ⟨"status", "job1", []⟩).1.error = none) ∧
    ((handleStatusAction ⟨"arn:aws:states:eu-west-1:123456789012:stateMachine:sm", "bucket"⟩
        (fun _ => Except.ok ⟨"SUCCEEDED", none, some "C"⟩)
        (some fun _ => Except.ok "http://u") ⟨"status", "job1", []⟩).1.frames.map
      (fun fr => (fr.hasField "error", fr.hasField "cause", fr.hasField "download_url"))) =
      [(false, true, true)] :=
  C1_amended_thm ⟨"arn:aws:states:eu-west-1:123456789012:stateMachine:sm", "bucket"⟩
    ⟨"status", "job1", []⟩ ⟨"aws", "states", "eu-west-1", "123456789012", "stateMachine:sm"⟩
    ⟨"SUCCEEDED", none, some "C"⟩ (fun _ => Except.ok "http://u")
    (by decide) (by rfl) rfl

/-- C2: for every status query whose describe-execution result has status
SUCCEEDED but whose presigned-URL generation returns an error, the overall
response is still a success, its frame contains the status field, and the
download_url field is absent. -/
theorem C2_thm
    (settings : PluginSettings) (qm : queryModel) (a : ARN)
    (result : DescribeExecutionOutput)
    (presignF : GetObjectPresignInput → Except String String) (errMsg : String)
    (hjob : ¬ qm.JobId = "")
    (harn : arnParse settings.stepFunctionArn = Except.ok a)
    (hstatus : result.status = "SUCCEEDED")
    (hpres : presignF { bucket := settings.s3Bucket, key := qm.JobId ++ ".pcapng", expires := timeHour } = Except.error errMsg) :
    ((handleStatusAction settings (fun _ => Except.ok result) (some presignF) qm).1.error = none) ∧
    ((handleStatusAction settings (fun _ => Except.ok result) (some presignF) qm).1.frames.map
        (fun fr => (fr.hasField "status", fr.hasField "download_url"))) = [(true, false)] := by
  cases hre : result.error <;>
  cases hrc : result.cause <;>
  simp [handleStatusAction, generatePresignedURL, Frame.hasField,
    hjob, harn, hstatus, hre, hrc, hpres]

/-- C2 witness: concrete SUCCEEDED result with a failing presigner. -/
theorem C2_witness :
    ((handleStatusAction ⟨"arn:aws:states:eu-west-1:123456789012:stateMachine:sm", "bucket"⟩
        (fun _ => Except.ok ⟨"SUCCEEDED", none, none⟩)
        (some fun _ => Except.error "boom") ⟨"status", "job1", []⟩).1.error = none) ∧
    ((handleStatusAction ⟨"arn:aws:states:eu-west-1:123456789012:stateMachine:sm", "bucket"⟩
        (fun _ => Except.ok ⟨"SUCCEEDED", none, none⟩)
        (some fun _ => Except.error "boom") ⟨"status", "job1", []⟩).1.frames.map
      (fun fr => (fr.hasField "status", fr.hasField "download_url"))) = [(true, false)] :=
  C2_thm ⟨"arn:aws:states:eu-west-1:123456789012:stateMachine:sm", "bucket"⟩
    ⟨"status", "job1", []⟩ ⟨"aws", "states", "eu-west-1", "123456789012", "stateMachine:sm"⟩
    ⟨"SUCCEEDED", none, none⟩ (fun _ => Except.error "boom") "boom"
    (by decide) (by rfl) rfl rfl

/-- C3 (counterexample to the claim as stated): for a blank job id and an
empty Extract map, the request handler returns the Extract validation
error, whose message does not mention the JobId field (the Extract check
precedes the JobId check). -/
theorem C3_counterexample :
    (handleRequestAction ⟨"arn:aws:states:eu-west-1:123456789012:stateMachine:sm", "bucket"⟩
        (fun _ => Except.ok "earn") ⟨"request", "", []⟩).1 =
      errDataResponse statusBadRequest "Extract parameter is required for request action" ∧
    strContainsSub "Extract parameter is required for request action" "JobId" = false := by
  exact ⟨rfl, by decide⟩

/-- C3 (amended): for every query with a blank job id, the status handler
returns the bad-request validation error naming JobId; the request handler
does so exactly when the Extract map is non-empty, returning the Extract
validation error instead when it is empty. -/
theorem C3_amended_thm
    (settings : PluginSettings) (qm : queryModel)
    (startF : StartExecutionInput → Except String String)
    (describeF : String → Except String DescribeExecutionOutput)
    (presigner : Option (GetObjectPresignInput → Except String String))
    (hjob : qm.JobId = "") :
    (handleStatusAction settings describeF presigner qm =
       (errDataResponse statusBadRequest "JobId is required for status action", [])) ∧
    (¬ qm.Extract = [] →
      handleRequestAction settings startF qm =
        (errDataResponse statusBadRequest "JobId is required for request action", [])) ∧
    (qm.Extract = [] →
      handleRequestAction settings startF qm =
        (errDataResponse statusBadRequest "Extract parameter is required for request action", [])) := by
  refine ⟨by simp [handleStatusAction, hjob], fun hext => ?_, fun hext => ?_⟩
  · simp [handleRequestAction, List.length_eq_zero, hext, hjob]
  · simp [handleRequestAction, hext]

/-- C3 witness: concrete blank job id with a non-empty Extract map. -/
theorem C3_witness :
    (handleStatusAction ⟨"arn1", "bucket"⟩ (fun _ => Except.error "x") none ⟨"status", "", [("a.pcap", [1])]⟩ =
       (errDataResponse statusBadRequest "JobId is required for status action", [])) ∧
    (¬ ([("a.pcap", [1])] : List (String × List Int)) = [] →
      handleRequestAction ⟨"arn1", "bucket"⟩ (fun _ => Except.ok "earn") ⟨"status", "", [("a.pcap", [1])]⟩ =
        (errDataResponse statusBadRequest "JobId is required for request action", [])) ∧
    (([("a.pcap", [1])] : List (String × List Int)) = [] →
      handleRequestAction ⟨"arn1", "bucket"⟩ (fun _ => Except.ok "earn") ⟨"status", "", [("a.pcap", [1])]⟩ =
        (errDataResponse statusBadRequest "Extract parameter is required for request action", [])) :=
  C3_amended_thm ⟨"arn1", "bucket"⟩ ⟨"status", "", [("a.pcap", [1])]⟩
    (fun _ => Except.ok "earn") (fun _ => Except.error "x") none rfl

/-- C4: for every request query with a non-blank job id and a non-empty
extraction map, when the start-execution call succeeds the response is
exactly one frame with exactly the two fields status = RUNNING and
job_id = the job id from the query. -/
theorem C4_thm
    (settings : PluginSettings) (qm : queryModel)
    (startF : StartExecutionInput → Except String String) (r : String)
    (hext : ¬ qm.Extract = [])
    (hjob : ¬ qm.JobId = "")
    (hstart : startF ⟨qm.JobId, settings.stepFunctionArn,
        marshalStepFunctionInput ⟨qm.JobId, settings.s3Bucket, qm.Extract⟩⟩ = Except.ok r) :
    (handleRequestAction settings startF qm).1 =
      { frames := [{ name := "step_function_request",
                     fields := [{ name := "status", values := ["RUNNING"] },
                                { name := "job_id", values := [qm.JobId] }] }],
        error := none } := by
  simp [handleRequestAction, List.length_eq_zero, hext, hjob, hstart]

/-- C4 witness: concrete successful start. -/
theorem C4_witness :
    (handleRequestAction ⟨"arn1", "buck"⟩ (fun _ => Except.ok "earn")
        ⟨"request", "j1", [("a.pcap", [1, 2])]⟩).1 =
      { frames := [{ name := "step_function_request",
                     fields := [{ name := "status", values := ["RUNNING"] },
                                { name := "job_id", values := ["j1"] }] }],
        error := none } :=
  C4_thm ⟨"arn1", "buck"⟩ ⟨"request", "j1", [("a.pcap", [1, 2])]⟩
    (fun _ => Except.ok "earn") "earn" (by decide) (by decide) rfl

/-- C5: for every status query whose describe-execution result has status
FAILED with both error and cause non-nil, the frame fields are exactly
status, error, cause in that order, holding the values from the result. -/
theorem C5_thm
    (settings : PluginSettings) (qm : queryModel) (a : ARN)
    (result : DescribeExecutionOutput)
    (presigner : Option (GetObjectPresignInput → Except String String))
    (e c : String)
    (hjob : ¬ qm.JobId = "")
    (harn : arnParse settings.stepFunctionArn = Except.ok a)
    (hstatus : result.status = "FAILED")
    (herr : result.error = some e)
    (hcause : result.cause = some c) :
    (handleStatusAction settings (fun _ => Except.ok result) presigner qm).1.frames =
      [{ name := "step_function_status",
         fields := [{ name := "status", values := ["FAILED"] },
                    { name := "error", values := [e] },
                    { name := "cause", values := [c] }] }] := by
  simp [handleStatusAction, hjob, harn, hstatus, herr, hcause]

/-- C5 witness: concrete FAILED result with error and cause. -/
theorem C5_witness :
    (handleStatusAction ⟨"arn:aws:states:eu-west-1:123456789012:stateMachine:sm", "bucket"⟩
        (fun _ => Except.ok ⟨"FAILED", some "States.TaskFailed", some "Network timeout"⟩)
        none ⟨"status", "job1", []⟩).1.frames =
      [{ name := "step_function_status",
         fields := [{ name := "status", values := ["FAILED"] },
                    { name := "error", values := ["States.TaskFailed"] },
                    { name := "cause", values := ["Network timeout"] }] }] :=
  C5_thm ⟨"arn:aws:states:eu-west-1:123456789012:stateMachine:sm", "bucket"⟩
    ⟨"status", "job1", []⟩ ⟨"aws", "states", "eu-west-1", "123456789012", "stateMachine:sm"⟩
    ⟨"FAILED", some "States.TaskFailed", some "Network timeout"⟩ none
    "States.TaskFailed" "Network timeout" (by decide) (by rfl) rfl rfl rfl

/-- C6: for every status query with a non-blank job id whose configured
Step Function ARN fails to parse, the handler returns a bad-request error
and performs no external call at all; in particular describe-execution is
never invoked. -/
theorem C6_thm
    (settings : PluginSettings) (qm : queryModel)
    (describeExecution : String → Except String DescribeExecutionOutput)
    (presigner : Option (GetObjectPresignInput → Except String String)) (e : String)
    (hjob : ¬ qm.JobId = "")
    (harn : arnParse settings.stepFunctionArn = Except.error e) :
    handleStatusAction settings describeExecution presigner qm =
      (errDataResponse statusBadRequest ("Failed to parse Step Function ARN: " ++ e), []) := by
  simp [handleStatusAction, hjob, harn]

/-- C6 witness: a malformed ARN with a describe stub that would answer if
it were called. -/
theorem C6_witness :
    handleStatusAction ⟨"nope", "bucket"⟩
        (fun _ => Except.ok ⟨"SUCCEEDED", none, none⟩) none ⟨"status", "job1", []⟩ =
      (errDataResponse statusBadRequest ("Failed to parse Step Function ARN: " ++ "arn: invalid prefix"), []) :=
  C6_thm ⟨"nope", "bucket"⟩ ⟨"status", "job1", []⟩
    (fun _ => Except.ok ⟨"SUCCEEDED", none, none⟩) none "arn: invalid prefix"
    (by decide) (by rfl)

/-- C7: for every configuration with a blank S3 bucket name, CheckHealth
returns the error result with message S3 Bucket name is missing, for any
Step Function ARN value (so the bucket check comes first) and with no
state-machine probe performed. -/
theorem C7_thm
    (settings : PluginSettings) (sfnClient : Option (String → Except String Unit))
    (hb : settings.s3Bucket = "") :
    CheckHealth settings sfnClient =
      ({ status := HealthStatus.error, message := "S3 Bucket name is missing" }, []) := by
  simp [CheckHealth, hb]

/-- C7 witness: both settings blank, a live state-machine probe available;
the bucket message still wins and the probe is not called. -/
theorem C7_witness :
    CheckHealth ⟨"", ""⟩ (some fun _ => Except.ok ()) =
      ({ status := HealthStatus.error, message := "S3 Bucket name is missing" }, []) :=
  C7_thm ⟨"", ""⟩ (some fun _ => Except.ok ()) rfl

/-- C8: for every request query with a non-blank job id and a non-empty
extraction map, the handler performs exactly one start-execution call,
named after the job id, against the configured state machine ARN, with
the JSON serialization of jobId, bucket, extract as its input. -/
theorem C8_thm
    (settings : PluginSettings) (qm : queryModel)
    (startF : StartExecutionInput → Except String String)
    (hext : ¬ qm.Extract = [])
    (hjob : ¬ qm.JobId = "") :
    (handleRequestAction settings startF qm).2 =
      [ExtCall.startExecution ⟨qm.JobId, settings.stepFunctionArn,
        marshalStepFunctionInput ⟨qm.JobId, settings.s3Bucket, qm.Extract⟩⟩] := by
  cases hs : startF ⟨qm.JobId, settings.stepFunctionArn,
      marshalStepFunctionInput ⟨qm.JobId, settings.s3Bucket, qm.Extract⟩⟩ <;>
  simp [handleRequestAction, List.length_eq_zero, hext, hjob, hs]

/-- C8 witness: concrete request; the serialized input is also evaluated
to its literal JSON text, with map keys in sorted order. -/
theorem C8_witness :
    (handleRequestAction ⟨"arn1", "buck"⟩ (fun _ => Except.ok "earn")
        ⟨"request", "j1", [("b.pcap", [3]), ("a.pcap", [1, 2])]⟩).2 =
      [ExtCall.startExecution ⟨"j1", "arn1",
        marshalStepFunctionInput ⟨"j1", "buck", [("b.pcap", [3]), ("a.pcap", [1, 2])]⟩⟩] ∧
    marshalStepFunctionInput ⟨"j1", "buck", [("b.pcap", [3]), ("a.pcap", [1, 2])]⟩ =
      "\x7b\"jobId\":\"j1\",\"bucket\":\"buck\",\"extract\":\x7b\"a.pcap\":[1,2],\"b.pcap\":[3]\x7d\x7d" :=
  ⟨C8_thm ⟨"arn1", "buck"⟩ ⟨"request", "j1", [("b.pcap", [3]), ("a.pcap", [1, 2])]⟩
    (fun _ => Except.ok "earn") (by decide) (by decide), by decide⟩

/-- C9: for every status query whose describe-execution result has status
SUCCEEDED and a presigner is available, the presign calls performed are
exactly one request for the configured bucket, the key jobId.pcapng, and
an expiry of one hour (time.Hour in nanoseconds). -/
theorem C9_thm
    (settings : PluginSettings) (qm : queryModel) (a : ARN)
    (result : DescribeExecutionOutput)
    (presignF : GetObjectPresignInput → Except String String)
    (hjob : ¬ qm.JobId = "")
    (harn : arnParse settings.stepFunctionArn = Except.ok a)
    (hstatus : result.status = "SUCCEEDED") :
    presignCallsOf (handleStatusAction settings (fun _ => Except.ok result) (some presignF) qm).2 =
      [ExtCall.presignGetObject { bucket := settings.s3Bucket, key := qm.JobId ++ ".pcapng", expires := timeHour }] ∧
    timeHour = 3600 * 1000000000 := by
  refine ⟨?_, rfl⟩
  cases hre : result.error <;>
  cases hrc : result.cause <;>
  cases hp : presignF { bucket := settings.s3Bucket, key := qm.JobId ++ ".pcapng", expires := timeHour } <;>
  simp [handleStatusAction, generatePresignedURL, presignCallsOf,
    hjob, harn, hstatus, hre, hrc, hp]

/-- C9 witness: concrete SUCCEEDED poll; exactly one presign call for
bucket, job1.pcapng and the one-hour expiry. -/
theorem C9_witness :
    presignCallsOf (handleStatusAction ⟨"arn:aws:states:eu-west-1:123456789012:stateMachine:sm", "bucket"⟩
        (fun _ => Except.ok ⟨"SUCCEEDED", none, none⟩)
        (some fun _ => Except.ok "http://u") ⟨"status", "job1", []⟩).2 =
      [ExtCall.presignGetObject { bucket := "bucket", key := "job1" ++ ".pcapng", expires := timeHour }] ∧
    timeHour = 3600 * 1000000000 :=
  C9_thm ⟨"arn:aws:states:eu-west-1:123456789012:stateMachine:sm", "bucket"⟩
    ⟨"status", "job1", []⟩ ⟨"aws", "states", "eu-west-1", "123456789012", "stateMachine:sm"⟩
    ⟨"SUCCEEDED", none, none⟩ (fun _ => Except.ok "http://u")
    (by decide) (by rfl) rfl

/-- C10: for every query that passes settings validation and whose action
is neither request nor status, the dispatcher returns a bad-request error
whose message contains the unknown action value, and performs no external
call (neither handler runs). -/
theorem C10_thm
    (settings : PluginSettings) (qm : queryModel)
    (startF : StartExecutionInput → Except String String)
    (describeF : String → Except String DescribeExecutionOutput)
    (presigner : Option (GetObjectPresignInput → Except String String))
    (hset : validateSettings settings = Except.ok ())
    (hreq : ¬ qm.Action = "request")
    (hstat : ¬ qm.Action = "status") :
    Datasource.query settings startF describeF presigner qm =
      (errDataResponse statusBadRequest ("unknown action: \x27" ++ qm.Action ++ "\x27"), []) ∧
    strContainsSub ("unknown action: \x27" ++ qm.Action ++ "\x27") qm.Action = true := by
  constructor
  · simp [Datasource.query, hset, hreq, hstat]
  · exact strContainsSub_append "unknown action: \x27" qm.Action "\x27"

/-- C10 witness: a concrete bogus action with valid settings. -/
theorem C10_witness :
    Datasource.query ⟨"arn1", "buck"⟩ (fun _ => Except.ok "earn")
        (fun _ => Except.error "x") none ⟨"bogus", "j1", []⟩ =
      (errDataResponse statusBadRequest ("unknown action: \x27" ++ "bogus" ++ "\x27"), []) ∧
    strContainsSub ("unknown action: \x27" ++ "bogus" ++ "\x27") "bogus" = true :=
  C10_thm ⟨"arn1", "buck"⟩ ⟨"bogus", "j1", []⟩ (fun _ => Except.ok "earn")
    (fun _ => Except.error "x") none rfl (by decide) (by decide)
